import Mathlib

/-!
Verification of the ReasonEval reasoning-quality pipeline.

Shallow embedding of the Python modules `reasoning_parser.py`, `evaluator.py`
and `scorer.py`.  Text is modelled as `List Char`; Python `int` as `Int`;
Python `float` arithmetic in the scorer as exact rationals (`ℚ`), with
`round(x, 2)` modelled as round-half-to-even at two decimal places.  The
fractional branch thresholds in the evaluator (`* 0.3`, `* 0.4`, `* 0.5`)
are modelled as exact rational comparisons (`10*t < 3*n`, …), which agree
with the Python float comparisons on all realistic input sizes.
Case-insensitive operations use ASCII case folding, and word characters
(`\w`) are ASCII alphanumerics plus underscore, matching the ASCII pattern
vocabulary used throughout the source.
-/

namespace ReasonEval

/-! ## Character and list-of-char utilities -/

/-- Python `\s` whitespace class (ASCII part). -/
def isWs (c : Char) : Bool :=
  c = ' ' || c = '\t' || c = '\n' || c = '\r' || c = '\x0b' || c = '\x0c'

/-- ASCII lowercasing, as used by `str.lower()` on the ASCII keyword lists. -/
def lowerChar (c : Char) : Char :=
  if 'A' ≤ c && c ≤ 'Z' then Char.ofNat (c.toNat + 32) else c

/-- Lowercase a character list. -/
def lowerL (l : List Char) : List Char := l.map lowerChar

/-- Python `str.strip()`: drop leading and trailing whitespace. -/
def strip (l : List Char) : List Char :=
  ((l.dropWhile isWs).reverse.dropWhile isWs).reverse

/-- Literal list prefix test. -/
def isPrefixL : List Char → List Char → Bool
  | [], _ => true
  | _ :: _, [] => false
  | a :: as, b :: bs => a = b && isPrefixL as bs

/-- Case-insensitive prefix test; the needle is given in lowercase. -/
def isPrefixCI : List Char → List Char → Bool
  | [], _ => true
  | _ :: _, [] => false
  | a :: as, b :: bs => a = lowerChar b && isPrefixCI as bs

/-- Python `needle in hay` substring containment. -/
def substr (needle : List Char) : List Char → Bool
  | [] => needle.isEmpty
  | hay@(_ :: rest) => isPrefixL needle hay || substr needle rest

/-- Suffix after the first case-insensitive occurrence of `needle`, if any
(the needle is given in lowercase). -/
def afterFirstCI (needle : List Char) : List Char → Option (List Char)
  | [] => if needle.isEmpty then some [] else none
  | hay@(_ :: rest) =>
    if isPrefixCI needle hay then some (hay.drop needle.length)
    else afterFirstCI needle rest

/-- Prefix up to the first case-insensitive occurrence of `needle`
(the whole list when the needle does not occur). -/
def uptoCI (needle : List Char) : List Char → List Char
  | [] => []
  | hay@(c :: rest) => if isPrefixCI needle hay then [] else c :: uptoCI needle rest

/-- Maximal runs of characters satisfying `p` (used for `\w+` word runs and
for `str.split()` token counting). -/
def runsBy (p : Char → Bool) : List Char → List (List Char)
  | [] => []
  | c :: rest =>
    if p c then (c :: rest.takeWhile p) :: runsBy p (rest.dropWhile p)
    else runsBy p rest
termination_by l => l.length
decreasing_by
  · simp only [List.length_cons]
    have h : (rest.dropWhile p).length ≤ rest.length := (List.dropWhile_sublist _).length_le
    omega
  · simp [List.length_cons]

/-- Python `\w` word character (ASCII part). -/
def isWordChar (c : Char) : Bool := c.isAlpha || c.isDigit || c = '_'

/-- Number of whitespace-separated tokens, Python `len(s.split())`. -/
def splitWsCount (l : List Char) : Nat := (runsBy (fun c => !isWs c) l).length

/-- Maximal `\w+` word runs, Python `re.findall(r'\b\w+\b', s)`. -/
def wordRuns (l : List Char) : List (List Char) := runsBy isWordChar l

/-- Python `" ".join(steps)`. -/
def joinSpace : List (List Char) → List Char
  | [] => []
  | [x] => x
  | x :: xs => x ++ ' ' :: joinSpace xs

/-! ## Rule results and issue strings -/

/-- A rule outcome: an integer score and an optional issue string
(`{"score": ..., "issue": ...}` in the source). -/
structure RuleResult where
  score : Int
  issue : Option String
deriving DecidableEq, Repr

/-- Python `"; ".join(issues)`. -/
def joinSemi : List String → String
  | [] => ""
  | [x] => x
  | x :: xs => x ++ "; " ++ joinSemi xs

/-- Python `"; ".join(issues) if issues else None`. -/
def mkIssue (l : List String) : Option String :=
  if l.isEmpty then none else some (joinSemi l)

/-! ## Word-boundary matching (`\b` in the assertive patterns) -/

/-- `\b` before a pattern that starts with a word character: the previous
character (if any) must not be a word character. -/
def boundaryBefore : Option Char → Bool
  | none => true
  | some c => !isWordChar c

/-- `\b` after a pattern that ends with a word character: the next character
(if any) must not be a word character. -/
def boundaryAfter : List Char → Bool
  | [] => true
  | c :: _ => !isWordChar c

/-- The word `w` matches at the head of `l` with word boundaries on both
sides, `prev` being the character preceding this position. -/
def wordAt (w : List Char) (prev : Option Char) (l : List Char) : Bool :=
  boundaryBefore prev && isPrefixL w l && boundaryAfter (l.drop w.length)

/-- Scan `l` for a boundary-delimited occurrence of `w` (`re.search(r'\bw\b', l)`). -/
def wordScan (w : List Char) (prev : Option Char) : List Char → Bool
  | [] => false
  | c :: rest => wordAt w prev (c :: rest) || wordScan w (some c) rest

/-- `re.search(r'\bw\b', hay)` as a Bool. -/
def wordOccurs (w hay : List Char) : Bool := wordScan w none hay

/-- Targets of the first assertive pattern: `(?:obvious|clear|evident)`. -/
def itIsTargets : List (List Char) := ["obvious".data, "clear".data, "evident".data]

/-- Scan for `\b(?:obvious|clear|evident)\b` reachable through `.*`
(no `re.DOTALL` here, so the gap may not contain a newline). -/
def itIsTargetScan (prev : Option Char) : List Char → Bool
  | [] => false
  | c :: rest =>
    itIsTargets.any (fun w => wordAt w prev (c :: rest)) ||
      (if c = '\n' then false else itIsTargetScan (some c) rest)

/-- `re.search(r'\bit is\b.*\b(?:obvious|clear|evident)\b', l)`. -/
def itIsScan (prev : Option Char) : List Char → Bool
  | [] => false
  | c :: rest =>
    (wordAt "it is".data prev (c :: rest) && itIsTargetScan (some 's') ((c :: rest).drop 5)) ||
      itIsScan (some c) rest

/-- The four `assertive_patterns` of `check_unsupported_claims`, as predicates
on the lowercased step text. -/
def assertivePatterns : List (List Char → Bool) :=
  [fun sl => itIsScan none sl,
   fun sl => wordOccurs "we know that".data sl,
   fun sl => wordOccurs "it must be".data sl,
   fun sl => wordOccurs "clearly".data sl]

/-! ## Rule bank (`evaluator.py`) -/

/-- `check_step_count` (evaluator.py:14). -/
def check_step_count (steps : List (List Char)) : RuleResult :=
  if steps.length = 0 then ⟨0, some "No reasoning steps found"⟩
  else if steps.length = 1 then ⟨30, some "Only one reasoning step provided"⟩
  else if steps.length = 2 then ⟨60, some "Only two reasoning steps (minimal)"⟩
  else ⟨100, none⟩

/-- The `transition_words` list of `check_logical_flow`. -/
def transition_words : List String :=
  ["therefore", "thus", "so", "hence", "consequently",
   "then", "next", "after", "because", "since",
   "as a result", "this means", "which gives"]

/-- `check_logical_flow` (evaluator.py:40).  The float comparisons
`t < n*0.3` and `v > n*0.4` are exact as `10*t < 3*n` and `10*v > 4*n`. -/
def check_logical_flow (steps : List (List Char)) : RuleResult :=
  if steps.length < 2 then ⟨50, some "Insufficient steps to evaluate flow"⟩
  else
    let transitions_found :=
      steps.countP (fun step =>
        transition_words.any (fun w => substr w.data (lowerL step)))
    let c1 := 10 * transitions_found < 3 * steps.length
    let very_short_steps := steps.countP (fun step => splitWsCount step < 5)
    let c2 := 10 * very_short_steps > 4 * steps.length
    let issues :=
      (if c1 then ["Weak logical connections between steps"] else []) ++
        (if c2 then ["Some steps are too brief or disconnected"] else [])
    let score : Int := 100 - (if c1 then 20 else 0) - (if c2 then 15 else 0)
    ⟨max 0 score, mkIssue issues⟩

/-- Per-step flag of `check_contradictions`. -/
def contraHit (step : List Char) : Bool :=
  substr "however".data (lowerL step) || substr "but actually".data (lowerL step) ||
    substr "correction".data (lowerL step)

/-- `check_contradictions` (evaluator.py:79).  The `contradiction_indicators`
list in the source is bound but never used; only the explicit substring flags
feed the score. -/
def check_contradictions (steps : List (List Char)) : RuleResult :=
  if steps.length < 2 then ⟨100, none⟩
  else
    let flagged := steps.enum.filter (fun p => contraHit p.2)
    let score : Int := 100 - 20 * flagged.length
    let issues := flagged.map
      (fun p => "Possible self-correction or contradiction in step " ++ toString (p.1 + 1))
    ⟨max 0 score, mkIssue issues⟩

/-- `check_answer_support` (evaluator.py:109).  The float comparison
`m < n*0.3` is exact as `10*m < 3*n`. -/
def check_answer_support (steps : List (List Char)) (answer : List Char) : RuleResult :=
  if answer.isEmpty || steps.isEmpty then ⟨0, some "Missing answer or reasoning"⟩
  else
    let answer_words :=
      ((wordRuns (lowerL answer)).filter (fun w => 3 < w.length)).dedup
    if answer_words.isEmpty then ⟨50, some "Cannot extract key terms from answer"⟩
    else
      let reasoning_text := lowerL (joinSpace steps)
      let matching_terms := answer_words.countP (fun w => substr w reasoning_text)
      if matching_terms = 0 then ⟨20, some "Answer not clearly derived from reasoning"⟩
      else if 10 * matching_terms < 3 * answer_words.length then
        ⟨50, some "Weak connection between reasoning and answer"⟩
      else ⟨100, none⟩

/-- Total character length across steps, `sum(len(step) for step in steps)`. -/
def stepsTotalLen (steps : List (List Char)) : Nat := (steps.map List.length).sum

/-- Operators searched for in the question by `check_missing_steps`. -/
def questionOps : List String :=
  ["+", "-", "*", "/", "calculate", "compute", "sum", "product"]

/-- Operators searched for in the steps by `check_missing_steps`. -/
def stepOps : List String := ["+", "-", "*", "/", "=", "equals"]

/-- `check_missing_steps` (evaluator.py:143).  Operator detection is plain
substring containment on the unmodified question/step text. -/
def check_missing_steps (steps : List (List Char)) (question : List Char) : RuleResult :=
  if steps.isEmpty then ⟨0, some "No reasoning provided"⟩
  else
    let qcalc := questionOps.any (fun op => substr op.data question)
    let has_calculation :=
      steps.any (fun step => stepOps.any (fun op => substr op.data step))
    let c1 := qcalc && !has_calculation
    let c2 := stepsTotalLen steps < 100
    let issues :=
      (if c1 then ["Question requires calculation but no explicit computation shown"] else []) ++
        (if c2 then ["Reasoning is too brief"] else [])
    let score : Int := 100 - (if c1 then 30 else 0) - (if c2 then 20 else 0)
    ⟨max 0 score, mkIssue issues⟩

/-- Vague words of `check_step_depth`. -/
def depthVagueWords : List String :=
  ["maybe", "perhaps", "possibly", "might", "could be", "seems"]

/-- `check_step_depth` (evaluator.py:174).  The float comparisons
`avg < 5`, `avg < 8` and `v > n*0.4` are exact as `sum < 5*n`,
`sum < 8*n` and `10*v > 4*n`. -/
def check_step_depth (steps : List (List Char)) : RuleResult :=
  if steps.isEmpty then ⟨0, some "No steps to evaluate"⟩
  else
    let totalWords := (steps.map splitWsCount).sum
    let cShallow := totalWords < 5 * steps.length
    let vague_count :=
      steps.countP (fun step =>
        depthVagueWords.any (fun w => substr w.data (lowerL step)))
    let cVague := 10 * vague_count > 4 * steps.length
    let issues :=
      (if cShallow then ["Steps are too shallow (very short)"]
       else if totalWords < 8 * steps.length then ["Steps could be more detailed"] else []) ++
        (if cVague then ["Too many vague or uncertain statements"] else [])
    let score : Int :=
      100 - (if cShallow then 30 else if totalWords < 8 * steps.length then 15 else 0) -
        (if cVague then 20 else 0)
    ⟨max 0 score, mkIssue issues⟩

/-- First-principles vocabulary of `check_reasoning_substance`. -/
def principlesIndicators : List String :=
  ["fundamental", "break down", "truth", "assumption", "axiom",
   "specifically", "precisely", "definition", "core"]

/-- Causal vocabulary of `check_reasoning_substance`. -/
def causalIndicators : List String :=
  ["because", "since", "implies", "causes", "leads to", "result of", "due to"]

/-- `check_reasoning_substance` (evaluator.py:209).  The float comparison
`fc < n*0.5` is exact as `2*fc < n`. -/
def check_reasoning_substance (steps : List (List Char)) : RuleResult :=
  if steps.isEmpty then ⟨0, some "No steps to evaluate"⟩
  else
    let full_text := lowerL (joinSpace steps)
    let found_principles := principlesIndicators.countP (fun ind => substr ind.data full_text)
    let c1 := found_principles = 0
    let found_causal := causalIndicators.countP (fun ind => substr ind.data full_text)
    let c2 := 2 * found_causal < steps.length
    let issues :=
      (if c1 then ["Lack of first-principles language (e.g., 'fundamental', 'assumption')"]
       else []) ++
        (if c2 then ["Weak causal reasoning (few 'because', 'since', etc.)"] else [])
    let score : Int := 100 - (if c1 then 20 else 0) - (if c2 then 15 else 0)
    ⟨max 0 score, mkIssue issues⟩

/-! ### Line-anchored patterns (`(?:^|\n)` with `re.MULTILINE`) -/

/-- Suffixes of `l` that start right after a newline character. -/
def newlineSuffixes : List Char → List (List Char)
  | [] => []
  | c :: rest => (if c = '\n' then [rest] else []) ++ newlineSuffixes rest

/-- All suffixes at which `(?:^|\n)` can place a match: the start of the text
and every position following a newline (consuming the `\n` alternative gives
the same positions). -/
def anchorSuffixes (l : List Char) : List (List Char) := l :: newlineSuffixes l

/-- `\s*\d+[.)]` at the head of an anchor suffix. -/
def numberedAt (l : List Char) : Bool :=
  let r := l.dropWhile isWs
  let ds := r.takeWhile Char.isDigit
  let rest := r.dropWhile Char.isDigit
  !ds.isEmpty && (rest.head? = some '.' || rest.head? = some ')')

/-- `\s*step\s+\d+` (case-insensitive) at the head of an anchor suffix. -/
def stepLabelAt (l : List Char) : Bool :=
  let r := l.dropWhile isWs
  isPrefixCI "step".data r &&
    (let r2 := r.drop 4
     !(r2.takeWhile isWs).isEmpty &&
       (match r2.dropWhile isWs with
        | c :: _ => c.isDigit
        | [] => false))

/-- The character class of the bullet check in `check_step_format`.  In the
source file the intended `•` was stored as the three mojibake characters
`â`, `€`, `¢`, so the class is `[-*â€¢]` = {'-', '*', 'â', '€', '¢'}. -/
def formatBulletChars : List Char := ['-', '*', 'â', '€', '¢']

/-- `\s*[-*â€¢]` at the head of an anchor suffix. -/
def formatBulletAt (l : List Char) : Bool :=
  match l.dropWhile isWs with
  | c :: _ => formatBulletChars.contains c
  | [] => false

/-- Ordinal word list of `check_step_format` (no `fourth`/`fifth` here). -/
def formatOrdinalWords : List (List Char) :=
  ["first".data, "second".data, "third".data, "next".data, "then".data, "finally".data]

/-- `\s*(?:first|second|third|next|then|finally)` (case-insensitive) at the
head of an anchor suffix. -/
def formatOrdinalAt (l : List Char) : Bool :=
  let r := l.dropWhile isWs
  formatOrdinalWords.any (fun w => isPrefixCI w r)

/-- `check_step_format` (evaluator.py:252). -/
def check_step_format (reasoning : List Char) : RuleResult :=
  if reasoning.isEmpty then ⟨0, some "No reasoning provided"⟩
  else
    let has_numbers := (anchorSuffixes reasoning).any numberedAt
    let has_step_labels := (anchorSuffixes reasoning).any stepLabelAt
    let has_bullets := (anchorSuffixes reasoning).any formatBulletAt
    let has_ordinals := (anchorSuffixes reasoning).any formatOrdinalAt
    let c1 := !(has_numbers || has_step_labels || has_bullets || has_ordinals)
    let issues := if c1 then ["No clear step-by-step structure"] else []
    let score : Int := 100 - (if c1 then 40 else 0)
    ⟨max 0 score, mkIssue issues⟩

/-- Consume `\s*\d+[.)]`, returning the unconsumed remainder. -/
def numberedBody (l : List Char) : Option (List Char) :=
  let r := l.dropWhile isWs
  let ds := r.takeWhile Char.isDigit
  let rest := r.dropWhile Char.isDigit
  if ds.isEmpty then none
  else
    match rest with
    | '.' :: t => some t
    | ')' :: t => some t
    | _ => none

/-- Consume `\s*step\s+\d+` (case-insensitive), returning the remainder. -/
def stepLabelBody (l : List Char) : Option (List Char) :=
  let r := l.dropWhile isWs
  if isPrefixCI "step".data r then
    let r2 := r.drop 4
    if (r2.takeWhile isWs).isEmpty then none
    else
      let r3 := r2.dropWhile isWs
      if (r3.takeWhile Char.isDigit).isEmpty then none
      else some (r3.dropWhile Char.isDigit)
  else none

/-- Left-to-right non-overlapping `re.findall` count for a line-anchored
pattern: at each scan position the anchor is the start of the text, a
preceding newline (`^` with `re.MULTILINE`), or a consumed `\n`; a match
consumes its body, and scanning resumes after it.  `fuel` bounds recursion
(the body always consumes at least one character). -/
def countScan (body : List Char → Option (List Char)) :
    Nat → Bool → List Char → Nat
  | 0, _, _ => 0
  | _ + 1, _, [] => 0
  | fuel + 1, atStart, c :: rest =>
    match (if atStart then body (c :: rest)
           else if c = '\n' then body rest else none) with
    | some rem => 1 + countScan body fuel false rem
    | none => countScan body fuel (c = '\n') rest

/-- `len(re.findall(...))` for a line-anchored pattern. -/
def countMatches (body : List Char → Option (List Char)) (l : List Char) : Nat :=
  countScan body (l.length + 1) true l

/-- `check_explicit_numbering` (evaluator.py:286). -/
def check_explicit_numbering (reasoning : List Char) : RuleResult :=
  if reasoning.isEmpty then ⟨0, some "No reasoning provided"⟩
  else
    let numbered_items := countMatches numberedBody reasoning
    let step_labels := countMatches stepLabelBody reasoning
    let total_explicit := numbered_items + step_labels
    if 3 ≤ total_explicit then ⟨100, none⟩
    else if 2 ≤ total_explicit then ⟨70, some "Limited explicit numbering"⟩
    else if 1 ≤ total_explicit then ⟨40, some "Minimal explicit numbering"⟩
    else ⟨20, some "No explicit step numbering"⟩

/-- Per-step flag of `check_unsupported_claims`: the inner loop breaks at the
first matching assertive pattern, and the justification test (substring
`because`/`since`/`as` on the lowercased step) does not depend on the
pattern, so a step is counted exactly once iff some pattern matches and no
justification substring occurs. -/
def stepUnsupported (step : List Char) : Bool :=
  let sl := lowerL step
  assertivePatterns.any (fun p => p sl) &&
    !substr "because".data sl && !substr "since".data sl && !substr "as".data sl

/-- `check_unsupported_claims` (evaluator.py:313). -/
def check_unsupported_claims (steps : List (List Char)) : RuleResult :=
  if steps.isEmpty then ⟨100, none⟩
  else
    let unsupported_count := steps.countP stepUnsupported
    let c1 := 0 < unsupported_count
    let issues :=
      if c1 then
        ["Found " ++ toString unsupported_count ++ " potentially unsupported claim(s)"]
      else []
    let score : Int := 100 - (if c1 then min 40 ((unsupported_count : Int) * 15) else 0)
    ⟨max 0 score, mkIssue issues⟩

/-- Vague vocabulary of `check_vague_statements`. -/
def vagueIndicators : List String :=
  ["probably", "maybe", "perhaps", "might", "could",
   "seems", "appears", "likely", "possibly", "somewhat",
   "kind of", "sort of", "approximately", "roughly"]

/-- `check_vague_statements` (evaluator.py:350).  The float comparisons
`v > n*0.5` and `v > n*0.3` are exact as `2*v > n` and `10*v > 3*n`. -/
def check_vague_statements (steps : List (List Char)) : RuleResult :=
  if steps.isEmpty then ⟨100, none⟩
  else
    let vague_count :=
      steps.countP (fun step =>
        vagueIndicators.any (fun w => substr w.data (lowerL step)))
    let cHigh := 2 * vague_count > steps.length
    let cMod := 10 * vague_count > 3 * steps.length
    let issues :=
      if cHigh then ["Excessive vague or uncertain language"]
      else if cMod then ["Moderate use of vague language"] else []
    let score : Int := 100 - (if cHigh then 40 else if cMod then 20 else 0)
    ⟨max 0 score, mkIssue issues⟩

/-! ## Main evaluation (`evaluate_reasoning`) -/

/-- The `logical_consistency` category results. -/
structure CategoryLC where
  step_count : RuleResult
  logical_flow : RuleResult
  contradictions : RuleResult
  answer_support : RuleResult
deriving DecidableEq, Repr

/-- The `completeness` category results. -/
structure CategoryComp where
  missing_steps : RuleResult
  step_depth : RuleResult
  substance : RuleResult
deriving DecidableEq, Repr

/-- The `instruction_following` category results. -/
structure CategoryIF where
  step_format : RuleResult
  explicit_numbering : RuleResult
deriving DecidableEq, Repr

/-- The `hallucination_risk` category results. -/
structure CategoryHR where
  unsupported_claims : RuleResult
  vague_statements : RuleResult
deriving DecidableEq, Repr

/-- The evaluator output: four fixed categories plus the derived issue list. -/
structure EvaluationResult where
  logical_consistency : CategoryLC
  completeness : CategoryComp
  instruction_following : CategoryIF
  hallucination_risk : CategoryHR
  detected_issues : List String
deriving DecidableEq, Repr

/-- One entry of the issue collection loop: Python tests
`rule_result.get("issue")` for truthiness, so `None` and the empty string
are both skipped; a kept issue is formatted `f"[{category}] {issue}"`. -/
def truthyEntry (category : String) (r : RuleResult) : Option String :=
  match r.issue with
  | some s => if s = "" then none else some ("[" ++ category ++ "] " ++ s)
  | none => none

/-- The inner loop over one category's rules (dict insertion order). -/
def issueEntries (category : String) (rules : List RuleResult) : List String :=
  rules.filterMap (truthyEntry category)

/-- `evaluate_reasoning` (evaluator.py:387). -/
def evaluate_reasoning (steps : List (List Char)) (answer question raw_reasoning : List Char) :
    EvaluationResult :=
  let lc : CategoryLC :=
    ⟨check_step_count steps, check_logical_flow steps,
     check_contradictions steps, check_answer_support steps answer⟩
  let comp : CategoryComp :=
    ⟨check_missing_steps steps question, check_step_depth steps,
     check_reasoning_substance steps⟩
  let instr : CategoryIF :=
    ⟨check_step_format raw_reasoning, check_explicit_numbering raw_reasoning⟩
  let hall : CategoryHR :=
    ⟨check_unsupported_claims steps, check_vague_statements steps⟩
  let all_issues :=
    issueEntries "logical_consistency"
        [lc.step_count, lc.logical_flow, lc.contradictions, lc.answer_support] ++
      issueEntries "completeness" [comp.missing_steps, comp.step_depth, comp.substance] ++
      issueEntries "instruction_following" [instr.step_format, instr.explicit_numbering] ++
      issueEntries "hallucination_risk" [hall.unsupported_claims, hall.vague_statements]
  ⟨lc, comp, instr, hall, all_issues⟩

/-! ## Response splitter (`reasoning_parser.py`) -/

/-- The parsed `{answer, reasoning}` record. -/
structure ParsedResponse where
  answer : List Char
  reasoning : List Char
deriving DecidableEq, Repr

/-- `parse_llm_response` (reasoning_parser.py:9).

Strategy 0 searches `REASONING:\s*(.*?)\s*(?:FINAL ANSWER:|$)` and
`FINAL ANSWER:\s*(.*)` (both `re.DOTALL | re.IGNORECASE`) and returns when
both stripped captures are non-empty.  Because the captures are immediately
stripped, the lazy capture with its surrounding `\s*` is equivalent to the
stripped span between the first case-insensitive `REASONING:` and the first
following case-insensitive `FINAL ANSWER:` (or the end of the text), and the
answer capture to the stripped tail after the first `FINAL ANSWER:`.

When strategy 0 does not return, the fallback block (lines 42-78) only binds
local variables and the function body ends without a `return` statement, so
Python returns `None`; this is modelled as `none`. -/
def parse_llm_response (raw : List Char) : Option ParsedResponse :=
  if (strip raw).isEmpty then some ⟨[], []⟩
  else
    let reasoning :=
      match afterFirstCI "reasoning:".data raw with
      | some t => strip (uptoCI "final answer:".data t)
      | none => []
    let answer :=
      match afterFirstCI "final answer:".data raw with
      | some t => strip t
      | none => []
    if !reasoning.isEmpty && !answer.isEmpty then some ⟨answer, reasoning⟩
    else none

/-! ### Step segmenter (`split_reasoning_steps`)

Each of the four cascading patterns has the shape

  `(?:^|\n) MARKER SEP+ (.+?) (?=(?:\n LOOKMARKER|\Z))`

with `re.MULTILINE | re.DOTALL` (patterns 2 and 4 also `re.IGNORECASE`).
The marker and lookahead-marker differ per pattern; `SEP` is `\s`, `[:\s]`
or `[,:\s]`.  The lazy capture stops at the earliest position (at least one
character after the greedy separator run) where a newline followed by the
lookahead marker, or the end of the text, follows.  When everything after
the separator class is exhausted, the greedy `SEP+` backtracks one
character so that the capture holds the final separator character. -/

/-- Consume an optional `(?:\*\*)?`.  When `**` is a prefix but the
continuation fails, the continuation also fails without consuming it (the
first continuation character would be `*`, which is neither a digit nor a
letter), so the greedy option never needs to backtrack. -/
def starstarOpt (l : List Char) : List Char :=
  if isPrefixL "**".data l then l.drop 2 else l

/-- Zero-width lookahead `(?:\n LOOKMARKER|\Z)` at a position. -/
def lookaheadOk (look : List Char → Bool) : List Char → Bool
  | [] => true
  | '\n' :: rest => look rest
  | _ => false

/-- Lazy `(.+?)` up to the lookahead: the shortest non-empty prefix whose
remainder satisfies the lookahead (the empty remainder always does, via
`\Z`).  Returns the capture and the unconsumed remainder. -/
def lazyCapture (look : List Char → Bool) : List Char → Option (List Char × List Char)
  | [] => none
  | c :: rest =>
    if lookaheadOk look rest then some ([c], rest)
    else
      match lazyCapture look rest with
      | some (cap, rem) => some (c :: cap, rem)
      | none => none

/-- Greedy `SEP+` followed by the lazy capture.  When the whole remainder
consists of separator characters, the greedy run backtracks one character
(possible only when at least two characters remain) and the capture is the
final character with the `\Z` lookahead. -/
def sepCapture (sepClass : Char → Bool) (look : List Char → Bool) (t : List Char) :
    Option (List Char × List Char) :=
  let w := t.takeWhile sepClass
  let p := t.dropWhile sepClass
  if w.isEmpty then none
  else
    match p with
    | [] =>
      match t.reverse with
      | last :: _ :: _ => some ([last], [])
      | _ => none
    | _ => lazyCapture look p

/-- Pattern 1 marker `\s*(?:\*\*)?\d+(?:[.)]|\*\*)`: consume it, returning
the remainder. -/
def p1Marker (l : List Char) : Option (List Char) :=
  let r := starstarOpt (l.dropWhile isWs)
  let ds := r.takeWhile Char.isDigit
  let rest := r.dropWhile Char.isDigit
  if ds.isEmpty then none
  else
    match rest with
    | '.' :: t => some t
    | ')' :: t => some t
    | _ => if isPrefixL "**".data rest then some (rest.drop 2) else none

/-- Pattern 1 lookahead marker (same shape as the opening marker). -/
def p1Look (l : List Char) : Bool := (p1Marker l).isSome

/-- Pattern 2 marker `\s*(?:\*\*)?(?:step\s+\d+|step\s+[a-z])(?:\*\*)?`
(case-insensitive).  The digit alternative is tried first; with maximal
`\s+`, the first non-whitespace character decides which alternative can
apply. -/
def p2Marker (l : List Char) : Option (List Char) :=
  let r := starstarOpt (l.dropWhile isWs)
  if isPrefixCI "step".data r then
    let r2 := r.drop 4
    if (r2.takeWhile isWs).isEmpty then none
    else
      let r3 := r2.dropWhile isWs
      if !(r3.takeWhile Char.isDigit).isEmpty then
        some (starstarOpt (r3.dropWhile Char.isDigit))
      else
        match r3 with
        | c :: t =>
          if 'a' ≤ lowerChar c && lowerChar c ≤ 'z' then some (starstarOpt t) else none
        | [] => none
  else none

/-- Pattern 2 lookahead marker `\s*(?:\*\*)?step\s+` (case-insensitive). -/
def p2Look (l : List Char) : Bool :=
  let r := starstarOpt (l.dropWhile isWs)
  isPrefixCI "step".data r && !((r.drop 4).takeWhile isWs).isEmpty

/-- Pattern 3 marker `\s*[-*•]` (the parser file holds a genuine `•`). -/
def p3Marker (l : List Char) : Option (List Char) :=
  match l.dropWhile isWs with
  | c :: t => if c = '-' || c = '*' || c = '•' then some t else none
  | [] => none

/-- Pattern 3 lookahead marker. -/
def p3Look (l : List Char) : Bool := (p3Marker l).isSome

/-- Ordinal word list of pattern 4 (includes `fourth` and `fifth`). -/
def splitOrdinalWords : List (List Char) :=
  ["first".data, "second".data, "third".data, "fourth".data, "fifth".data,
   "next".data, "then".data, "finally".data]

/-- Pattern 4 marker `\s*(?:first|second|third|fourth|fifth|next|then|finally)`
(case-insensitive; the alternatives are tried in order and no two can match
the same text). -/
def p4Marker (l : List Char) : Option (List Char) :=
  let r := l.dropWhile isWs
  (splitOrdinalWords.find? (fun w => isPrefixCI w r)).map (fun w => r.drop w.length)

/-- Pattern 4 lookahead marker. -/
def p4Look (l : List Char) : Bool :=
  let r := l.dropWhile isWs
  splitOrdinalWords.any (fun w => isPrefixCI w r)

/-- Left-to-right non-overlapping `re.findall` for one cascading pattern:
anchor, marker, separator run, lazy capture; scanning resumes at the
unconsumed lookahead.  `fuel` bounds recursion (a match always consumes at
least one character). -/
def itemScan (marker : List Char → Option (List Char)) (sepClass : Char → Bool)
    (look : List Char → Bool) : Nat → Bool → List Char → List (List Char)
  | 0, _, _ => []
  | _ + 1, _, [] => []
  | fuel + 1, atStart, c :: rest =>
    let att := if atStart then some (c :: rest) else if c = '\n' then some rest else none
    match att.bind (fun l => (marker l).bind (sepCapture sepClass look)) with
    | some (cap, rem) => cap :: itemScan marker sepClass look fuel false rem
    | none => itemScan marker sepClass look fuel (c = '\n') rest

/-- `re.findall` over the whole text for one cascading pattern. -/
def findallP (marker : List Char → Option (List Char)) (sepClass : Char → Bool)
    (look : List Char → Bool) (l : List Char) : List (List Char) :=
  itemScan marker sepClass look (l.length + 1) true l

/-- Python `text.split(sep)` for a non-empty separator: non-overlapping,
left-to-right. -/
def splitOnSep (sep : List Char) : Nat → List Char → List (List Char)
  | 0, l => [l]
  | _ + 1, [] => [[]]
  | fuel + 1, l@(c :: rest) =>
    if isPrefixL sep l then
      match splitOnSep sep fuel (l.drop sep.length) with
      | piece :: pieces => [] :: piece :: pieces
      | [] => [[]]
    else
      match splitOnSep sep fuel rest with
      | piece :: pieces => (c :: piece) :: pieces
      | [] => [[c]]

/-- Sentence-terminal characters of the sentence fallback. -/
def isSentPunct (c : Char) : Bool := c = '.' || c = '!' || c = '?'

/-- `re.split(r'[.!?]+\s+', reasoning)`: a delimiter is a maximal run of
sentence punctuation followed by at least one whitespace character; the
greedy `\s+` consumes the maximal whitespace run.  A punctuation run with no
following whitespace is ordinary text (no suffix of the run is followed by
whitespace either). -/
def sentSplit : Nat → List Char → List Char → List (List Char)
  | 0, acc, _ => [acc.reverse]
  | _ + 1, acc, [] => [acc.reverse]
  | fuel + 1, acc, l@(c :: rest) =>
    if isSentPunct c then
      let run := l.takeWhile isSentPunct
      let after := l.dropWhile isSentPunct
      if (after.takeWhile isWs).isEmpty then
        sentSplit fuel (run.reverse ++ acc) after
      else
        acc.reverse :: sentSplit fuel [] (after.dropWhile isWs)
    else
      sentSplit fuel (c :: acc) rest

/-- `split_reasoning_steps` (reasoning_parser.py:81). -/
def split_reasoning_steps (reasoning : List Char) : List (List Char) :=
  if (strip reasoning).isEmpty then []
  else
    let numbered := (findallP p1Marker isWs p1Look reasoning).map strip
    if 2 ≤ numbered.length then numbered
    else
      let stepLabeled :=
        (findallP p2Marker (fun c => c = ':' || isWs c) p2Look reasoning).map strip
      if 2 ≤ stepLabeled.length then stepLabeled
      else
        let bullets := (findallP p3Marker isWs p3Look reasoning).map strip
        if 2 ≤ bullets.length then bullets
        else
          let ordinals :=
            (findallP p4Marker (fun c => c = ',' || c = ':' || isWs c) p4Look reasoning).map strip
          if 2 ≤ ordinals.length then ordinals
          else
            let paragraphs :=
              ((splitOnSep "\n\n".data (reasoning.length + 1) reasoning).map strip).filter
                (fun p => !p.isEmpty)
            if 2 ≤ paragraphs.length then paragraphs
            else
              let sentences :=
                ((sentSplit (reasoning.length + 1) [] reasoning).map strip).filter
                  (fun s => !s.isEmpty && 10 < s.length)
              if 2 ≤ sentences.length then sentences
              else [strip reasoning]

/-! ## Scorer (`scorer.py`, weights and threshold from `config.py`) -/

/-- `SCORING_WEIGHTS["logical_consistency"]`. -/
def weight_logical_consistency : ℚ := 0.35

/-- `SCORING_WEIGHTS["completeness"]`. -/
def weight_completeness : ℚ := 0.25

/-- `SCORING_WEIGHTS["instruction_following"]`. -/
def weight_instruction_following : ℚ := 0.20

/-- `SCORING_WEIGHTS["hallucination_risk"]` (applied to the inverted score). -/
def weight_hallucination_risk : ℚ := 0.20

/-- `GOOD_REASONING_THRESHOLD`. -/
def GOOD_REASONING_THRESHOLD : ℚ := 70

/-- Round-half-to-even to an integer, the rounding used by Python `round`. -/
def rhalfEven (x : ℚ) : ℤ :=
  let f := ⌊x⌋
  let r := x - f
  if r < 1 / 2 then f
  else if 1 / 2 < r then f + 1
  else if Even f then f else f + 1

/-- Python `round(x, 2)` on exact rationals. -/
def round2 (x : ℚ) : ℚ := (rhalfEven (100 * x) : ℚ) / 100

/-- The four aggregated category scores. -/
structure ScoreSet where
  logical_consistency_score : ℚ
  completeness_score : ℚ
  instruction_following_score : ℚ
  hallucination_risk_score : ℚ
deriving DecidableEq, Repr

/-- `calculate_scores` (scorer.py:9): each category score is the mean of that
category's rule scores rounded to two decimals.  The guards mirror the
`if lc_scores else 0` (and `else 100` for hallucination risk) defaults of
the source, which are unreachable for the fixed rule table. -/
def calculate_scores (e : EvaluationResult) : ScoreSet :=
  let lc_scores : List Int :=
    [e.logical_consistency.step_count.score, e.logical_consistency.logical_flow.score,
     e.logical_consistency.contradictions.score, e.logical_consistency.answer_support.score]
  let comp_scores : List Int :=
    [e.completeness.missing_steps.score, e.completeness.step_depth.score,
     e.completeness.substance.score]
  let if_scores : List Int :=
    [e.instruction_following.step_format.score,
     e.instruction_following.explicit_numbering.score]
  let hr_scores : List Int :=
    [e.hallucination_risk.unsupported_claims.score,
     e.hallucination_risk.vague_statements.score]
  { logical_consistency_score :=
      round2 (if lc_scores.isEmpty then 0 else (lc_scores.sum : ℚ) / lc_scores.length)
    completeness_score :=
      round2 (if comp_scores.isEmpty then 0 else (comp_scores.sum : ℚ) / comp_scores.length)
    instruction_following_score :=
      round2 (if if_scores.isEmpty then 0 else (if_scores.sum : ℚ) / if_scores.length)
    hallucination_risk_score :=
      round2 (if hr_scores.isEmpty then 100 else (hr_scores.sum : ℚ) / hr_scores.length) }

/-- `generate_verdict` (scorer.py:52): thresholds the unrounded weighted sum. -/
def generate_verdict (scores : ScoreSet) : String :=
  let weighted_score :=
    scores.logical_consistency_score * weight_logical_consistency +
      scores.completeness_score * weight_completeness +
      scores.instruction_following_score * weight_instruction_following +
      (100 - scores.hallucination_risk_score) * weight_hallucination_risk
  if GOOD_REASONING_THRESHOLD ≤ weighted_score then "Good Reasoning"
  else "Flawed Reasoning"

/-- `get_overall_score` (scorer.py:78): the same weighted sum, rounded to two
decimals. -/
def get_overall_score (scores : ScoreSet) : ℚ :=
  let weighted_score :=
    scores.logical_consistency_score * weight_logical_consistency +
      scores.completeness_score * weight_completeness +
      scores.instruction_following_score * weight_instruction_following +
      (100 - scores.hallucination_risk_score) * weight_hallucination_risk
  round2 weighted_score

/-! ## Specification-side definitions used in the claim statements -/

/-- A rule score lies in the documented range `[0, 100]`. -/
def scoreInRange (r : RuleResult) : Prop := 0 ≤ r.score ∧ r.score ≤ 100

/-- The spec's overall weighted formula
`0.35*lc + 0.25*comp + 0.20*if + 0.20*(100 - hr)` (before rounding). -/
def weightedTotal (s : ScoreSet) : ℚ :=
  0.35 * s.logical_consistency_score + 0.25 * s.completeness_score +
    0.20 * s.instruction_following_score + 0.20 * (100 - s.hallucination_risk_score)

/-- The eleven `(category, rule result)` pairs in declaration order:
category declaration order, then rule declaration order within a category. -/
def categoryRulePairs (e : EvaluationResult) : List (String × RuleResult) :=
  [("logical_consistency", e.logical_consistency.step_count),
   ("logical_consistency", e.logical_consistency.logical_flow),
   ("logical_consistency", e.logical_consistency.contradictions),
   ("logical_consistency", e.logical_consistency.answer_support),
   ("completeness", e.completeness.missing_steps),
   ("completeness", e.completeness.step_depth),
   ("completeness", e.completeness.substance),
   ("instruction_following", e.instruction_following.step_format),
   ("instruction_following", e.instruction_following.explicit_numbering),
   ("hallucination_risk", e.hallucination_risk.unsupported_claims),
   ("hallucination_risk", e.hallucination_risk.vague_statements)]

/-- The spec's issue list: one entry `[<category>] <issue>` for each rule
whose result has a non-null issue, in declaration order. -/
def declaredIssues (e : EvaluationResult) : List String :=
  (categoryRulePairs e).filterMap
    (fun p => p.2.issue.map (fun s => "[" ++ p.1 ++ "] " ++ s))

/-- The concrete raw response of the spec's parsing test vector. -/
def c4raw : List Char := "REASONING:\n1. First, X.\n2. Then, Y.\nFINAL ANSWER:\nZ".data

/-- The reasoning block extracted from `c4raw`. -/
def c4reasoning : List Char := "1. First, X.\n2. Then, Y.".data

/-! ## Helper lemmas: score bounds -/

theorem check_step_count_range (steps : List (List Char)) :
    scoreInRange (check_step_count steps) := by
  unfold check_step_count scoreInRange
  split_ifs <;> exact ⟨by norm_num, by norm_num⟩

theorem check_logical_flow_range (steps : List (List Char)) :
    scoreInRange (check_logical_flow steps) := by
  unfold check_logical_flow scoreInRange
  split_ifs <;> simp <;> omega

theorem check_contradictions_range (steps : List (List Char)) :
    scoreInRange (check_contradictions steps) := by
  unfold check_contradictions scoreInRange
  split_ifs <;> simp <;> omega

theorem check_answer_support_range (steps : List (List Char)) (answer : List Char) :
    scoreInRange (check_answer_support steps answer) := by
  unfold check_answer_support scoreInRange
  dsimp only
  split_ifs <;> exact ⟨by norm_num, by norm_num⟩

theorem check_missing_steps_range (steps : List (List Char)) (question : List Char) :
    scoreInRange (check_missing_steps steps question) := by
  unfold check_missing_steps scoreInRange
  split_ifs <;> simp <;> omega

theorem check_step_depth_range (steps : List (List Char)) :
    scoreInRange (check_step_depth steps) := by
  unfold check_step_depth scoreInRange
  split_ifs <;> simp <;> omega

theorem check_reasoning_substance_range (steps : List (List Char)) :
    scoreInRange (check_reasoning_substance steps) := by
  unfold check_reasoning_substance scoreInRange
  split_ifs <;> simp <;> omega

theorem check_step_format_range (reasoning : List Char) :
    scoreInRange (check_step_format reasoning) := by
  unfold check_step_format scoreInRange
  split_ifs <;> simp <;> omega

theorem check_explicit_numbering_range (reasoning : List Char) :
    scoreInRange (check_explicit_numbering reasoning) := by
  unfold check_explicit_numbering scoreInRange
  dsimp only
  split_ifs <;> exact ⟨by norm_num, by norm_num⟩

theorem check_unsupported_claims_range (steps : List (List Char)) :
    scoreInRange (check_unsupported_claims steps) := by
  unfold check_unsupported_claims scoreInRange
  split_ifs <;> simp <;> omega

theorem check_vague_statements_range (steps : List (List Char)) :
    scoreInRange (check_vague_statements steps) := by
  unfold check_vague_statements scoreInRange
  split_ifs <;> simp <;> omega

/-! ## Helper lemmas: issue strings are never `some ""` -/

theorem str_append_ne_empty (a b : String) (h : a ≠ "") : a ++ b ≠ "" := by
  intro hc
  apply h
  have hd : (a ++ b).data = "".data := congrArg String.data hc
  rw [String.data_append] at hd
  have := List.append_eq_nil.mp hd
  cases a
  simp_all

theorem joinSemi_ne_empty :
    ∀ l : List String, (∀ s ∈ l, s ≠ "") → l ≠ [] → joinSemi l ≠ "" := by
  intro l h hne
  match l with
  | [x] =>
    have := h x (by simp)
    simpa [joinSemi] using this
  | x :: y :: ys =>
    have hx := h x (by simp)
    show x ++ "; " ++ joinSemi (y :: ys) ≠ ""
    exact str_append_ne_empty _ _ (str_append_ne_empty _ _ hx)

theorem mkIssue_ne (l : List String) (h : ∀ s ∈ l, s ≠ "") : mkIssue l ≠ some "" := by
  unfold mkIssue
  split_ifs with hemp
  · simp
  · intro hc
    have hj : joinSemi l = "" := by injection hc
    exact joinSemi_ne_empty l h (by simpa using hemp) hj

theorem check_step_count_issue (steps : List (List Char)) :
    (check_step_count steps).issue ≠ some "" := by
  unfold check_step_count
  split_ifs <;> simp

theorem check_logical_flow_issue (steps : List (List Char)) :
    (check_logical_flow steps).issue ≠ some "" := by
  unfold check_logical_flow
  dsimp only
  split_ifs <;> decide

theorem check_contradictions_issue (steps : List (List Char)) :
    (check_contradictions steps).issue ≠ some "" := by
  unfold check_contradictions
  dsimp only
  split_ifs
  · simp
  · apply mkIssue_ne
    intro s hs
    simp only [List.mem_map] at hs
    obtain ⟨p, _, hp⟩ := hs
    subst hp
    exact str_append_ne_empty _ _ (by decide)

theorem check_answer_support_issue (steps : List (List Char)) (answer : List Char) :
    (check_answer_support steps answer).issue ≠ some "" := by
  unfold check_answer_support
  dsimp only
  split_ifs <;> simp

theorem check_missing_steps_issue (steps : List (List Char)) (question : List Char) :
    (check_missing_steps steps question).issue ≠ some "" := by
  unfold check_missing_steps
  dsimp only
  split_ifs <;> decide

theorem check_step_depth_issue (steps : List (List Char)) :
    (check_step_depth steps).issue ≠ some "" := by
  unfold check_step_depth
  dsimp only
  split_ifs <;> decide

theorem check_reasoning_substance_issue (steps : List (List Char)) :
    (check_reasoning_substance steps).issue ≠ some "" := by
  unfold check_reasoning_substance
  dsimp only
  split_ifs <;> decide

theorem check_step_format_issue (reasoning : List Char) :
    (check_step_format reasoning).issue ≠ some "" := by
  unfold check_step_format
  dsimp only
  split_ifs <;> decide

theorem check_explicit_numbering_issue (reasoning : List Char) :
    (check_explicit_numbering reasoning).issue ≠ some "" := by
  unfold check_explicit_numbering
  dsimp only
  split_ifs <;> simp

theorem check_unsupported_claims_issue (steps : List (List Char)) :
    (check_unsupported_claims steps).issue ≠ some "" := by
  unfold check_unsupported_claims
  dsimp only
  split_ifs
  · decide
  · have h : mkIssue
        ["Found " ++ toString (List.countP stepUnsupported steps) ++
          " potentially unsupported claim(s)"] ≠ some "" := by
      apply mkIssue_ne
      intro s hs
      simp only [List.mem_singleton] at hs
      subst hs
      exact str_append_ne_empty _ _ (str_append_ne_empty _ _ (by decide))
    exact h
  · decide

theorem check_vague_statements_issue (steps : List (List Char)) :
    (check_vague_statements steps).issue ≠ some "" := by
  unfold check_vague_statements
  dsimp only
  split_ifs <;> decide

/-! ## Claim theorems -/

/-- C1: the claim says `split(raw)` always returns a record with both string
fields present and never returns a null result.  The code violates this: on
any input where the explicit-block strategy does not produce both a
non-empty reasoning and a non-empty answer (for example the plain text
`"hello"`), the fallback block of `parse_llm_response` falls off the end of
the function without a `return`, so Python returns `None`. -/
theorem C1_parse_fallback_returns_none :
    parse_llm_response "hello".data = none := by decide

/-- C4: on the concrete raw response
`"REASONING:\n1. First, X.\n2. Then, Y.\nFINAL ANSWER:\nZ"`, `split` yields
answer `"Z"` and a reasoning containing `"1. First, X."` and
`"2. Then, Y."`, and `segment` applied to that reasoning yields exactly
`["First, X.", "Then, Y."]` in order. -/
theorem C4_concrete_parse_and_segment :
    parse_llm_response c4raw = some ⟨"Z".data, c4reasoning⟩ ∧
    substr "1. First, X.".data c4reasoning = true ∧
    substr "2. Then, Y.".data c4reasoning = true ∧
    split_reasoning_steps c4reasoning = ["First, X.".data, "Then, Y.".data] := by
  decide

/-- C6: the claim says the step-format rule's bullet pattern includes the
marker `•`.  In the source the character class was encoding-corrupted to
the three mojibake characters `â`, `€`, `¢`, so a reasoning text whose only
structure is genuine `•` bullets is penalised 40 points (score 60 instead
of the claimed 100), while the stray character `â` is accepted as a bullet
marker. -/
theorem C6_step_format_bullet_mojibake :
    check_step_format "• do alpha\n• do beta".data =
      ⟨60, some "No clear step-by-step structure"⟩ ∧
    check_step_format "â one\nâ two".data = ⟨100, none⟩ := by
  decide

/-- C9: the step-count rule returns 0 on no steps, 30 with issue
`"Only one reasoning step provided"` on one step, 60 with issue
`"Only two reasoning steps (minimal)"` on two steps, and 100 with no issue
on three or more steps. -/
theorem C9_step_count_cases (steps : List (List Char)) :
    (steps = [] → check_step_count steps = ⟨0, some "No reasoning steps found"⟩) ∧
    (steps.length = 1 →
      check_step_count steps = ⟨30, some "Only one reasoning step provided"⟩) ∧
    (steps.length = 2 →
      check_step_count steps = ⟨60, some "Only two reasoning steps (minimal)"⟩) ∧
    (3 ≤ steps.length → check_step_count steps = ⟨100, none⟩) := by
  refine ⟨?_, ?_, ?_, ?_⟩ <;> intro h
  · subst h; decide
  · simp only [check_step_count, h]
    norm_num
  · simp only [check_step_count, h]
    norm_num
  · simp only [check_step_count]
    rw [if_neg (by omega), if_neg (by omega), if_neg (by omega)]

/-- Witness for C9 at concrete step lists of length 0, 1, 2 and 3. -/
theorem C9_step_count_cases_witness :
    check_step_count [] = ⟨0, some "No reasoning steps found"⟩ ∧
    check_step_count ["a".data] = ⟨30, some "Only one reasoning step provided"⟩ ∧
    check_step_count ["a".data, "b".data] =
      ⟨60, some "Only two reasoning steps (minimal)"⟩ ∧
    check_step_count ["a".data, "b".data, "c".data] = ⟨100, none⟩ :=
  ⟨(C9_step_count_cases []).1 rfl,
   (C9_step_count_cases ["a".data]).2.1 (by decide),
   (C9_step_count_cases ["a".data, "b".data]).2.2.1 (by decide),
   (C9_step_count_cases ["a".data, "b".data, "c".data]).2.2.2 (by decide)⟩

/-- C7: the unsupported-claims rule returns 100 with no issue on an empty
step list; otherwise its score is `100 - min 40 (15 * count)` where `count`
counts the steps that match an assertive pattern and contain none of the
justification substrings `because`/`since`/`as`; each step is counted at
most once. -/
theorem C7_unsupported_claims_formula :
    check_unsupported_claims [] = ⟨100, none⟩ ∧
    ∀ steps : List (List Char), steps ≠ [] →
      (check_unsupported_claims steps).score =
        100 - min 40 (15 * (steps.countP stepUnsupported : Int)) ∧
      steps.countP stepUnsupported ≤ steps.length := by
  refine ⟨by decide, ?_⟩
  intro steps hne
  refine ⟨?_, List.countP_le_length _⟩
  unfold check_unsupported_claims
  rw [if_neg (by simpa [List.isEmpty_iff] using hne)]
  dsimp only
  split_ifs <;> omega

/-- Witness for C7 at a concrete step list with two unsupported claims. -/
theorem C7_unsupported_claims_formula_witness :
    (check_unsupported_claims
      ["Clearly wrong".data, "ok step".data, "it must be so".data]).score = 70 := by
  have h := (C7_unsupported_claims_formula.2
    ["Clearly wrong".data, "ok step".data, "it must be so".data] (by decide)).1
  rw [h]
  decide

/-- C5: every rule of the rule bank returns an (integer) score in the range
`[0, 100]`, for every step sequence, answer, question and raw reasoning. -/
theorem C5_rule_scores_in_range (steps : List (List Char))
    (answer question raw_reasoning : List Char) :
    scoreInRange (check_step_count steps) ∧
    scoreInRange (check_logical_flow steps) ∧
    scoreInRange (check_contradictions steps) ∧
    scoreInRange (check_answer_support steps answer) ∧
    scoreInRange (check_missing_steps steps question) ∧
    scoreInRange (check_step_depth steps) ∧
    scoreInRange (check_reasoning_substance steps) ∧
    scoreInRange (check_step_format raw_reasoning) ∧
    scoreInRange (check_explicit_numbering raw_reasoning) ∧
    scoreInRange (check_unsupported_claims steps) ∧
    scoreInRange (check_vague_statements steps) :=
  ⟨check_step_count_range steps, check_logical_flow_range steps,
   check_contradictions_range steps, check_answer_support_range steps answer,
   check_missing_steps_range steps question, check_step_depth_range steps,
   check_reasoning_substance_range steps, check_step_format_range raw_reasoning,
   check_explicit_numbering_range raw_reasoning,
   check_unsupported_claims_range steps, check_vague_statements_range steps⟩

/-- C2: for every `EvaluationResult` with the fixed rule table, each
category score equals the arithmetic mean of that category's rule scores
rounded to two decimals, and the overall score equals
`0.35*lc + 0.25*comp + 0.20*if + 0.20*(100 - hr)` of the category scores,
rounded to two decimals. -/
theorem C2_scores_means_and_overall (e : EvaluationResult) :
    calculate_scores e =
      ⟨round2 (((e.logical_consistency.step_count.score : ℚ) +
          (e.logical_consistency.logical_flow.score : ℚ) +
          (e.logical_consistency.contradictions.score : ℚ) +
          (e.logical_consistency.answer_support.score : ℚ)) / 4),
       round2 (((e.completeness.missing_steps.score : ℚ) +
          (e.completeness.step_depth.score : ℚ) +
          (e.completeness.substance.score : ℚ)) / 3),
       round2 (((e.instruction_following.step_format.score : ℚ) +
          (e.instruction_following.explicit_numbering.score : ℚ)) / 2),
       round2 (((e.hallucination_risk.unsupported_claims.score : ℚ) +
          (e.hallucination_risk.vague_statements.score : ℚ)) / 2)⟩ ∧
    get_overall_score (calculate_scores e) = round2 (weightedTotal (calculate_scores e)) := by
  constructor
  · unfold calculate_scores
    simp only [List.isEmpty_cons, Bool.false_eq_true, if_false, List.sum_cons,
      List.sum_nil, List.length_cons, List.length_nil, ScoreSet.mk.injEq]
    refine ⟨?_, ?_, ?_, ?_⟩ <;> (apply congrArg round2; push_cast; ring)
  · unfold get_overall_score weightedTotal
    dsimp only
    apply congrArg round2
    unfold weight_logical_consistency weight_completeness
      weight_instruction_following weight_hallucination_risk
    ring

/-- C3 (amended): the verdict is GoodReasoning iff the unrounded weighted
sum `0.35*lc + 0.25*comp + 0.20*if + 0.20*(100 - hr)` is at least 70;
`generate_verdict` thresholds this unrounded sum, not the rounded overall
score. -/
theorem C3_verdict_iff_unrounded (s : ScoreSet) :
    generate_verdict s = "Good Reasoning" ↔ 70 ≤ weightedTotal s := by
  unfold generate_verdict weightedTotal GOOD_REASONING_THRESHOLD
  dsimp only
  rw [show s.logical_consistency_score * weight_logical_consistency +
      s.completeness_score * weight_completeness +
      s.instruction_following_score * weight_instruction_following +
      (100 - s.hallucination_risk_score) * weight_hallucination_risk =
      0.35 * s.logical_consistency_score + 0.25 * s.completeness_score +
      0.20 * s.instruction_following_score +
      0.20 * (100 - s.hallucination_risk_score) from by
    unfold weight_logical_consistency weight_completeness
      weight_instruction_following weight_hallucination_risk
    ring]
  constructor
  · intro hv
    by_contra hlt
    rw [if_neg hlt] at hv
    exact (by decide : "Flawed Reasoning" ≠ "Good Reasoning") hv
  · intro hge
    rw [if_pos hge]

/-- C3 counterexample: at the ScoreSet `(99.99, 59.98, 0.02, 0.00)` (all in
`[0,100]` with two decimals) the unrounded weighted sum is `69.9955`, so
`generate_verdict` answers FlawedReasoning while the rounded overall score
is `70.00 ≥ 70`: the claimed equivalence between the verdict and the
threshold test on `get_overall_score` fails. -/
theorem C3_rounded_threshold_counterexample :
    ¬ (generate_verdict ⟨99.99, 59.98, 0.02, 0⟩ = "Good Reasoning" ↔
        70 ≤ get_overall_score ⟨99.99, 59.98, 0.02, 0⟩) := by
  have hv : generate_verdict ⟨99.99, 59.98, 0.02, 0⟩ = "Flawed Reasoning" := by
    unfold generate_verdict GOOD_REASONING_THRESHOLD weight_logical_consistency
      weight_completeness weight_instruction_following weight_hallucination_risk
    norm_num
  have ho : get_overall_score ⟨99.99, 59.98, 0.02, 0⟩ = 70 := by
    unfold get_overall_score round2 rhalfEven weight_logical_consistency
      weight_completeness weight_instruction_following weight_hallucination_risk
    norm_num
  intro h
  have := h.mpr (by rw [ho])
  rw [hv] at this
  exact (by decide : "Flawed Reasoning" ≠ "Good Reasoning") this

/-- One truthy entry agrees with the non-null-filtered entry whenever the
issue is never `some ""`. -/
theorem truthyEntry_eq (cat : String) (r : RuleResult) (h : r.issue ≠ some "") :
    truthyEntry cat r = r.issue.map (fun s => "[" ++ cat ++ "] " ++ s) := by
  unfold truthyEntry
  cases hi : r.issue with
  | none => rfl
  | some s =>
    rw [hi] at h
    have hs : s ≠ "" := fun hc => h (by rw [hc])
    simp [hs]

theorem issueEntries_eq_pairs (cat : String) :
    ∀ rs : List RuleResult, (∀ r ∈ rs, r.issue ≠ some "") →
      issueEntries cat rs =
        (rs.map (fun r => (cat, r))).filterMap
          (fun p => p.2.issue.map (fun s => "[" ++ p.1 ++ "] " ++ s)) := by
  intro rs
  induction rs with
  | nil => intro _; rfl
  | cons r t ih =>
    intro h
    have hr := h r (by simp)
    have ht := ih (fun x hx => h x (by simp [hx]))
    unfold issueEntries at ht ⊢
    simp only [List.map_cons, List.filterMap_cons, truthyEntry_eq cat r hr, ht]

/-- C8: the `detected_issues` list contains exactly one entry
`[<category>] <issue>` for each rule whose result has a non-null issue, in
category declaration order and rule declaration order, omitting rules with
no issue. -/
theorem C8_detected_issues_order (steps : List (List Char))
    (answer question raw_reasoning : List Char) :
    (evaluate_reasoning steps answer question raw_reasoning).detected_issues =
      declaredIssues (evaluate_reasoning steps answer question raw_reasoning) := by
  unfold evaluate_reasoning declaredIssues
  dsimp only
  rw [issueEntries_eq_pairs _ _ (by
      intro r hr
      simp only [List.mem_cons, List.not_mem_nil, or_false] at hr
      rcases hr with h | h | h | h <;> subst h
      · exact check_step_count_issue steps
      · exact check_logical_flow_issue steps
      · exact check_contradictions_issue steps
      · exact check_answer_support_issue steps answer),
    issueEntries_eq_pairs _ _ (by
      intro r hr
      simp only [List.mem_cons, List.not_mem_nil, or_false] at hr
      rcases hr with h | h | h <;> subst h
      · exact check_missing_steps_issue steps question
      · exact check_step_depth_issue steps
      · exact check_reasoning_substance_issue steps),
    issueEntries_eq_pairs _ _ (by
      intro r hr
      simp only [List.mem_cons, List.not_mem_nil, or_false] at hr
      rcases hr with h | h <;> subst h
      · exact check_step_format_issue raw_reasoning
      · exact check_explicit_numbering_issue raw_reasoning),
    issueEntries_eq_pairs _ _ (by
      intro r hr
      simp only [List.mem_cons, List.not_mem_nil, or_false] at hr
      rcases hr with h | h <;> subst h
      · exact check_unsupported_claims_issue steps
      · exact check_vague_statements_issue steps)]
  simp only [List.map_cons, List.map_nil, categoryRulePairs]
  rw [← List.filterMap_append, ← List.filterMap_append, ← List.filterMap_append]
  rfl

/-- C10: the missing-steps rule detects an "arithmetic operator" by bare
single-character substring containment.  For a non-empty step list: if the
question contains `-` anywhere (also as a hyphen inside a word) and no step
contains any of `+`, `-`, `*`, `/`, `=`, `equals`, the 30-point
no-computation penalty applies; conversely, if any step contains `-` (also
inside a hyphenated word), the computation counts as shown and only the
brevity penalty can apply. -/
theorem C10_missing_steps_hyphen (steps : List (List Char)) (question : List Char)
    (hne : steps ≠ []) :
    (substr "-".data question = true →
      (∀ s ∈ steps, ∀ op ∈ stepOps, substr op.data s = false) →
      (check_missing_steps steps question).score =
        70 - (if stepsTotalLen steps < 100 then 20 else 0)) ∧
    ((∃ s ∈ steps, substr "-".data s = true) →
      (check_missing_steps steps question).score =
        100 - (if stepsTotalLen steps < 100 then 20 else 0)) := by
  constructor
  · intro hq hops
    unfold check_missing_steps
    rw [if_neg (by simpa [List.isEmpty_iff] using hne)]
    dsimp only
    have hqc : (questionOps.any fun op => substr op.data question) = true :=
      List.any_eq_true.mpr ⟨"-", by decide, hq⟩
    have hcalc : (steps.any fun step => stepOps.any fun op => substr op.data step) = false := by
      rw [List.any_eq_false]
      intro s hs
      simp only [List.any_eq_true, not_exists]
      rintro op ⟨hop, hsub⟩
      rw [hops s hs op hop] at hsub
      exact Bool.false_ne_true hsub
    rw [hqc, hcalc]
    simp only [Bool.not_false, Bool.and_self, if_true]
    split_ifs <;> decide
  · intro hex
    unfold check_missing_steps
    rw [if_neg (by simpa [List.isEmpty_iff] using hne)]
    dsimp only
    have hcalc : (steps.any fun step => stepOps.any fun op => substr op.data step) = true := by
      obtain ⟨s, hs, hsub⟩ := hex
      exact List.any_eq_true.mpr ⟨s, hs, List.any_eq_true.mpr ⟨"-", by decide, hsub⟩⟩
    rw [hcalc]
    simp only [Bool.not_true, Bool.and_false, Bool.false_eq_true, if_false]
    split_ifs <;> decide

/-- Witness for C10: both directions instantiated at concrete inputs. -/
theorem C10_missing_steps_hyphen_witness :
    (check_missing_steps ["no operators here at all".data]
      "a well-known puzzle".data).score = 50 ∧
    (check_missing_steps ["uses a well-known identity".data]
      "a well-known puzzle".data).score = 80 := by
  constructor
  · have h := (C10_missing_steps_hyphen ["no operators here at all".data]
      "a well-known puzzle".data (by decide)).1 (by decide) (by decide)
    rw [h]
    decide
  · have h := (C10_missing_steps_hyphen ["uses a well-known identity".data]
      "a well-known puzzle".data (by decide)).2
      ⟨"uses a well-known identity".data, by decide, by decide⟩
    rw [h]
    decide

end ReasonEval
